import Mathlib

/-!
Verification of the filtering-and-aggregation pipeline of the supermarket
sales dashboard (`dashboard_tarea_grupo_44.py`).

The embedding is a shallow one:
* a pandas DataFrame row becomes a `SaleRecord`; the DataFrame itself is an
  ordered `List SaleRecord`;
* dates are day numbers (`ℤ`) — the source parses calendar dates with no
  time component at the granularity used for filtering;
* decimal columns are `ℚ`;
* the numeric coercion with the coerce error mode on a possibly malformed cell is an
  `Option ℚ` field on the raw record (`none` = coercion failed, pandas NaN);
* the sequential boolean-mask filters of the script become sequential
  `List.filter` steps;
* `groupby(...).sum()` becomes: deduplicated key list, each key paired with
  the sum of the aggregated column over the rows having that key;
* `sort_values(ascending = False)` becomes `List.mergeSort` with the
  descending comparison on the summed value;
* `DataFrame.corr()` (pairwise Pearson correlation) is expressed over `ℝ`
  with `Real.sqrt`; the centred second moments stay in `ℚ`.
-/

/-- One row of the sales table, after a successful load
(all numeric columns coerced). Field names follow the CSV columns used by
the script: `Invoice ID`, `Branch`, `Product line`, `Customer type`,
`Payment`, `Unit price`, `Quantity`, `Tax 5%`, `Total`, `cogs`,
`gross income`, `Rating`, `Date`. -/
structure SaleRecord where
  invoiceId : String
  branch : String
  productLine : String
  customerType : String
  payment : String
  unitPrice : ℚ
  quantity : ℚ
  tax : ℚ
  total : ℚ
  cogs : ℚ
  grossIncome : ℚ
  rating : ℚ
  date : ℤ
deriving DecidableEq, Repr

/-- A raw CSV row before `load_data` coerces the two numeric columns.
`grossIncomeRaw` and `cogsRaw` are the results of
the coercing numeric conversion on the corresponding cells:
`none` models a cell whose numeric coercion failed (NaN). -/
structure RawRecord where
  invoiceId : String
  branch : String
  productLine : String
  customerType : String
  payment : String
  unitPrice : ℚ
  quantity : ℚ
  tax : ℚ
  total : ℚ
  cogsRaw : Option ℚ
  grossIncomeRaw : Option ℚ
  rating : ℚ
  date : ℤ
deriving DecidableEq, Repr

/-- The successfully coerced record: both numeric cells parsed. All other
fields are carried over unchanged. -/
def RawRecord.coerce (r : RawRecord) : Option SaleRecord :=
  match r.grossIncomeRaw, r.cogsRaw with
  | some g, some c =>
      some { invoiceId := r.invoiceId, branch := r.branch,
             productLine := r.productLine, customerType := r.customerType,
             payment := r.payment, unitPrice := r.unitPrice,
             quantity := r.quantity, tax := r.tax, total := r.total,
             cogs := c, grossIncome := g, rating := r.rating, date := r.date }
  | _, _ => none

/-- Function `load_data` (lines 17–31 of the script): coerce `gross income` to
numeric and drop the rows where it is NaN, then likewise for `cogs`.
The two `dropna` passes of the script are the two nested `List.filter`
steps; the final `filterMap` extracts the coerced record (it is total on
the rows that survive both filters). -/
def load_data (rows : List RawRecord) : List SaleRecord :=
  (((rows.filter (fun r => r.grossIncomeRaw.isSome)).filter
      (fun r => r.cogsRaw.isSome)).filterMap RawRecord.coerce)

/-- The sidebar selection: branch (`Todas` = all), product line
(`Todas` = all), customer type (`Todos` = all), and the tuple returned by
the date-range picker, which holds fewer than two dates while the user is
mid-selection.  The script applies the date filter only when
`len(selected_date_range) == 2`. -/
structure Selection where
  branch : String
  productLine : String
  customerType : String
  dateRange : List ℤ
deriving DecidableEq, Repr

/-- Line 65: `if selected_branch != Todas: filtered_df = filtered_df[filtered_df[Branch] == selected_branch]`. -/
def filterBranch (sel : Selection) (df : List SaleRecord) : List SaleRecord :=
  if sel.branch ≠ "Todas" then df.filter (fun r => r.branch == sel.branch) else df

/-- Line 69: the same pattern on the product-line column. -/
def filterProductLine (sel : Selection) (df : List SaleRecord) : List SaleRecord :=
  if sel.productLine ≠ "Todas" then df.filter (fun r => r.productLine == sel.productLine) else df

/-- Line 73: the same pattern on the customer-type column, with sentinel `Todos`. -/
def filterCustomerType (sel : Selection) (df : List SaleRecord) : List SaleRecord :=
  if sel.customerType ≠ "Todos" then df.filter (fun r => r.customerType == sel.customerType) else df

/-- Line 77: `if len(selected_date_range) == 2`, keep the rows with `start <= Date <= end`. -/
def filterDate (sel : Selection) (df : List SaleRecord) : List SaleRecord :=
  match sel.dateRange with
  | [s, e] => df.filter (fun r => s ≤ r.date ∧ r.date ≤ e)
  | _ => df

/-- The filter pipeline of lines 62–81: branch, then product line, then
customer type, then date range, each applied to the running `filtered_df`. -/
def applyFilters (df : List SaleRecord) (sel : Selection) : List SaleRecord :=
  filterDate sel (filterCustomerType sel (filterProductLine sel (filterBranch sel df)))

/-- The date condition of the spec: when the selection provides both
endpoints, the row's date must lie between them (inclusive); with fewer
than two endpoints the date filter is skipped entirely. -/
def dateWithin (range : List ℤ) (d : ℤ) : Prop :=
  match range with
  | [s, e] => s ≤ d ∧ d ≤ e
  | _ => True

instance (range : List ℤ) (d : ℤ) : Decidable (dateWithin range d) :=
  match range with
  | [s, e] => inferInstanceAs (Decidable (s ≤ d ∧ d ≤ e))
  | [] => inferInstanceAs (Decidable True)
  | [_] => inferInstanceAs (Decidable True)
  | _ :: _ :: _ :: _ => inferInstanceAs (Decidable True)

/-- The spec-side row predicate: the conjunction of the four keep
conditions of §4.2 of the spec ("all filters combined with logical AND"). -/
def keepRow (sel : Selection) (r : SaleRecord) : Prop :=
  (sel.branch = "Todas" ∨ r.branch = sel.branch) ∧
  (sel.productLine = "Todas" ∨ r.productLine = sel.productLine) ∧
  (sel.customerType = "Todos" ∨ r.customerType = sel.customerType) ∧
  dateWithin sel.dateRange r.date

instance (sel : Selection) (r : SaleRecord) : Decidable (keepRow sel r) :=
  inferInstanceAs (Decidable (_ ∧ _ ∧ _ ∧ _))

/-- The four KPI numbers of lines 93–96: `Total` sum, `gross income` sum,
`Rating` mean, distinct `Invoice ID` count. -/
structure KpiSummary where
  total_revenue : ℚ
  total_gross_income : ℚ
  average_rating : ℚ
  num_transactions : ℕ
deriving DecidableEq, Repr

/-- The column mean used for the `Rating` KPI. -/
def meanQ (xs : List ℚ) : ℚ := xs.sum / xs.length

/-- The KPI block (lines 92–105): the four metrics are computed only
under the `if not filtered_df.empty` guard; the `else` branch shows the
"no hay datos" warning, modelled as `none`. `nunique` is the number of
deduplicated invoice identifiers. -/
def kpiSummary (df : List SaleRecord) : Option KpiSummary :=
  if df.isEmpty then none
  else some
    { total_revenue := (df.map (·.total)).sum
      total_gross_income := (df.map (·.grossIncome)).sum
      average_rating := meanQ (df.map (·.rating))
      num_transactions := (df.map (·.invoiceId)).dedup.length }

/-- Model of `groupby` followed by `sum` and `reset_index`: one output pair per
distinct key, carrying the sum of `f` over the rows with that key.
(The group *order* produced by pandas — ascending key order — is not
relied on by any claim; the deduplicated key list has the same members.) -/
def groupSumBy {κ : Type} [DecidableEq κ]
    (key : SaleRecord → κ) (f : SaleRecord → ℚ) (df : List SaleRecord) :
    List (κ × ℚ) :=
  (df.map key).dedup.map
    (fun k => (k, ((df.filter (fun r => key r = k)).map f).sum))

/-- Model of `sort_values(ascending=False)` on the summed column. -/
def sortDescBySum {κ : Type} (l : List (κ × ℚ)) : List (κ × ℚ) :=
  l.mergeSort (fun a b => decide (b.2 ≤ a.2))

/-- Line 144: group the filtered view by the product-line column, sum the
`Total` column per group, and sort the groups by that sum descending. -/
def revenue_by_product_line (df : List SaleRecord) : List (String × ℚ) :=
  sortDescBySum (groupSumBy (·.productLine) (·.total) df)

/-- Chart 6 returns one of two differently-shaped tables depending on the
branch selection (lines 189–201). -/
inductive IncomeComposition where
  | byProduct : List (String × ℚ) → IncomeComposition
  | byBranchProduct : List ((String × String) × ℚ) → IncomeComposition
deriving DecidableEq, Repr

/-- Lines 189–201: if a specific branch is selected, group the filtered
view by product line, sum `gross income`, sorted descending; if `Todas`,
group by the (branch, product line) pair and sum `gross income` per pair
(no sort in the source for this mode). -/
def incomeComposition (df : List SaleRecord) (selected_branch : String) :
    IncomeComposition :=
  if selected_branch ≠ "Todas" then
    .byProduct (sortDescBySum (groupSumBy (·.productLine) (·.grossIncome) df))
  else
    .byBranchProduct (groupSumBy (fun r => (r.branch, r.productLine)) (·.grossIncome) df)

/-- The fixed set of numeric columns used for the correlation heat map
(line 232): `Unit price`, `Quantity`, `Tax 5%`, `Total`, `cogs`,
`gross income`, `Rating`.  In this embedding every one of the seven is
present and numeric, so `valid_numeric_cols` is the whole list. -/
def corrCol : Fin 7 → SaleRecord → ℚ
  | 0 => (·.unitPrice)
  | 1 => (·.quantity)
  | 2 => (·.tax)
  | 3 => (·.total)
  | 4 => (·.cogs)
  | 5 => (·.grossIncome)
  | 6 => (·.rating)

/-- Centred second moment `Σ (f r − mean f)·(g r − mean g)` over the view.
Pearson correlation is `sxy f g / sqrt (sxy f f · sxy g g)`; the `1/(n−1)`
normalisation of the sample covariance cancels in that ratio, so it is
omitted here. -/
def sxy (f g : SaleRecord → ℚ) (df : List SaleRecord) : ℚ :=
  (df.map (fun r => (f r - meanQ (df.map f)) * (g r - meanQ (df.map g)))).sum

/-- Pearson correlation of two columns over the view, as a real number.
(Division by zero is the `ℝ` junk value `0`; the floating-point original
produces NaN there — both differ from `1`.) -/
noncomputable def corr (f g : SaleRecord → ℚ) (df : List SaleRecord) : ℝ :=
  (sxy f g df : ℝ) / (Real.sqrt (sxy f f df) * Real.sqrt (sxy g g df))

/-- Line 237: `correlation_matrix_filtered = filtered_df[valid_numeric_cols].corr()`. -/
noncomputable def correlation_matrix (df : List SaleRecord) (i j : Fin 7) : ℝ :=
  corr (corrCol i) (corrCol j) df

/-! ### Helper lemmas about the filter pipeline -/

lemma filterBranch_eq_filter (sel : Selection) (df : List SaleRecord) :
    filterBranch sel df =
      df.filter (fun r => decide (sel.branch = "Todas" ∨ r.branch = sel.branch)) := by
  unfold filterBranch
  by_cases hb : sel.branch = "Todas"
  · simp [hb]
  · simp only [hb, ne_eq, not_false_iff, if_true]
    refine List.filter_congr (fun r _ => ?_)
    simp [hb, beq_eq_decide]

lemma filterProductLine_eq_filter (sel : Selection) (df : List SaleRecord) :
    filterProductLine sel df =
      df.filter (fun r => decide (sel.productLine = "Todas" ∨ r.productLine = sel.productLine)) := by
  unfold filterProductLine
  by_cases hb : sel.productLine = "Todas"
  · simp [hb]
  · simp only [hb, ne_eq, not_false_iff, if_true]
    refine List.filter_congr (fun r _ => ?_)
    simp [hb, beq_eq_decide]

lemma filterCustomerType_eq_filter (sel : Selection) (df : List SaleRecord) :
    filterCustomerType sel df =
      df.filter (fun r => decide (sel.customerType = "Todos" ∨ r.customerType = sel.customerType)) := by
  unfold filterCustomerType
  by_cases hb : sel.customerType = "Todos"
  · simp [hb]
  · simp only [hb, ne_eq, not_false_iff, if_true]
    refine List.filter_congr (fun r _ => ?_)
    simp [hb, beq_eq_decide]

lemma filterDate_eq_filter (sel : Selection) (df : List SaleRecord) :
    filterDate sel df =
      df.filter (fun r => decide (dateWithin sel.dateRange r.date)) := by
  unfold filterDate dateWithin
  match sel.dateRange with
  | [s, e] => rfl
  | [] => simp
  | [_] => simp
  | _ :: _ :: _ :: _ => simp

/-- The sequential boolean-mask filters of the script coincide with a
single filter by the conjunctive predicate `keepRow`. -/
lemma applyFilters_eq_filter (df : List SaleRecord) (sel : Selection) :
    applyFilters df sel = df.filter (fun r => decide (keepRow sel r)) := by
  unfold applyFilters
  rw [filterBranch_eq_filter, filterProductLine_eq_filter,
    filterCustomerType_eq_filter, filterDate_eq_filter,
    List.filter_filter, List.filter_filter, List.filter_filter]
  refine List.filter_congr (fun r _ => ?_)
  rw [Bool.eq_iff_iff]
  simp only [Bool.and_eq_true, Bool.or_eq_true, decide_eq_true_eq, keepRow]
  tauto

lemma min?_le_of_mem_int {l : List ℤ} {a b : ℤ} (h : l.min? = some a) (hb : b ∈ l) :
    a ≤ b := by
  haveI : Std.Antisymm (fun (x y : ℤ) => x ≤ y) := ⟨fun h h' => le_antisymm h h'⟩
  exact ((List.min?_eq_some_iff (by exact fun x => le_refl x)
    (by exact fun x y => min_choice x y)
    (by exact fun x y z => le_min_iff)).mp h).2 b hb

lemma le_max?_of_mem_int {l : List ℤ} {a b : ℤ} (h : l.max? = some a) (hb : b ∈ l) :
    b ≤ a := by
  haveI : Std.Antisymm (fun (x y : ℤ) => x ≤ y) := ⟨fun h h' => le_antisymm h h'⟩
  exact ((List.max?_eq_some_iff (by exact fun x => le_refl x)
    (by exact fun x y => max_choice x y)
    (by exact fun x y z => max_le_iff)).mp h).2 b hb

lemma filterBranch_sublist (sel : Selection) (df : List SaleRecord) :
    (filterBranch sel df).Sublist df := by
  unfold filterBranch
  split
  · exact List.filter_sublist df
  · exact List.Sublist.refl df

lemma filterProductLine_sublist (sel : Selection) (df : List SaleRecord) :
    (filterProductLine sel df).Sublist df := by
  unfold filterProductLine
  split
  · exact List.filter_sublist df
  · exact List.Sublist.refl df

lemma filterCustomerType_sublist (sel : Selection) (df : List SaleRecord) :
    (filterCustomerType sel df).Sublist df := by
  unfold filterCustomerType
  split
  · exact List.filter_sublist df
  · exact List.Sublist.refl df

lemma filterDate_sublist (sel : Selection) (df : List SaleRecord) :
    (filterDate sel df).Sublist df := by
  unfold filterDate
  split
  · exact List.filter_sublist df
  · exact List.Sublist.refl df

/-! ### Sample data (the three-row dataset of §8 of the spec, with the
remaining columns filled in concretely) -/

def rowA : SaleRecord :=
  { invoiceId := "I1", branch := "A", productLine := "Electronics",
    customerType := "Member", payment := "Cash", unitPrice := 10,
    quantity := 10, tax := 0, total := 100, cogs := 90, grossIncome := 10,
    rating := 8, date := 1 }

def rowB : SaleRecord :=
  { invoiceId := "I2", branch := "B", productLine := "Electronics",
    customerType := "Normal", payment := "Cash", unitPrice := 5,
    quantity := 10, tax := 0, total := 50, cogs := 45, grossIncome := 5,
    rating := 6, date := 2 }

def rowC : SaleRecord :=
  { invoiceId := "I3", branch := "A", productLine := "Food",
    customerType := "Member", payment := "Credit", unitPrice := 3,
    quantity := 10, tax := 0, total := 30, cogs := 27, grossIncome := 3,
    rating := 7, date := 3 }

def dfABC : List SaleRecord := [rowA, rowB, rowC]

/-! ### Claims about the filter engine -/

/-- C1: `applyFilters` combines the four filters conjunctively — a row is
kept iff (branch is `Todas` or matches exactly), likewise for product line
and customer type, and, when the selection provides both date endpoints,
start ≤ date ≤ end inclusive; with fewer than two endpoints the date
filter is skipped. `keepRow` is exactly that conjunction, and the four
sequential masks equal one filter by it. -/
theorem applyFilters_conjunctive (df : List SaleRecord) (sel : Selection) :
    applyFilters df sel = df.filter (fun r => decide (keepRow sel r)) :=
  applyFilters_eq_filter df sel

/-- C2: the neutral selection — branch, product line, customer type all
set to the "all" sentinel and the date range spanning the dataset's
minimum through maximum date — reproduces the full dataset. -/
theorem applyFilters_neutral_id (df : List SaleRecord) (lo hi : ℤ)
    (hlo : (df.map (·.date)).min? = some lo)
    (hhi : (df.map (·.date)).max? = some hi) :
    applyFilters df ⟨"Todas", "Todas", "Todos", [lo, hi]⟩ = df := by
  rw [applyFilters_eq_filter]
  refine List.filter_eq_self.mpr (fun r hr => ?_)
  have h1 : lo ≤ r.date := min?_le_of_mem_int hlo (List.mem_map_of_mem _ hr)
  have h2 : r.date ≤ hi := le_max?_of_mem_int hhi (List.mem_map_of_mem _ hr)
  simp [keepRow, dateWithin, h1, h2]

/-- C2 witness: on the three-row dataset the date column has minimum 1 and
maximum 3, and the neutral selection keeps all three rows. -/
theorem applyFilters_neutral_id_witness :
    applyFilters dfABC ⟨"Todas", "Todas", "Todos", [1, 3]⟩ = dfABC :=
  applyFilters_neutral_id dfABC 1 3 (by decide) (by decide)

/-- C3: the filtered view contains only rows of the dataset (no
synthesized rows), and filtering twice with the same selection equals
filtering once. -/
theorem applyFilters_subset_idem (df : List SaleRecord) (sel : Selection) :
    (∀ r, r ∈ applyFilters df sel → r ∈ df) ∧
    applyFilters (applyFilters df sel) sel = applyFilters df sel := by
  constructor
  · intro r hr
    rw [applyFilters_eq_filter] at hr
    exact List.mem_of_mem_filter hr
  · rw [applyFilters_eq_filter df sel, applyFilters_eq_filter]
    refine List.filter_eq_self.mpr (fun r hr => ?_)
    exact (List.mem_filter.mp hr).2

/-- C3 witness: on the three-row dataset with branch `A` selected, the
surviving row `rowA` is indeed a dataset row, and refiltering is a
no-op. -/
theorem applyFilters_subset_idem_witness :
    rowA ∈ dfABC ∧
    applyFilters (applyFilters dfABC ⟨"A", "Todas", "Todos", [1, 3]⟩)
        ⟨"A", "Todas", "Todos", [1, 3]⟩ =
      applyFilters dfABC ⟨"A", "Todas", "Todos", [1, 3]⟩ :=
  ⟨(applyFilters_subset_idem dfABC ⟨"A", "Todas", "Todos", [1, 3]⟩).1 rowA (by decide),
   (applyFilters_subset_idem dfABC ⟨"A", "Todas", "Todos", [1, 3]⟩).2⟩

/-! ### Claims about the loader and the KPI guard -/

lemma filterMap_coerce_filter (pr : RawRecord → Bool)
    (h : ∀ r, pr r = false → r.coerce = none) (rows : List RawRecord) :
    (rows.filter pr).filterMap RawRecord.coerce = rows.filterMap RawRecord.coerce := by
  induction rows with
  | nil => rfl
  | cons r rest ih =>
    rw [List.filter_cons]
    cases hpr : pr r with
    | true => simp only [if_pos trivial, List.filterMap_cons, ih]
    | false =>
      simp only [Bool.false_eq_true, if_false, List.filterMap_cons, h r hpr, ih]

lemma load_data_eq_filterMap (rows : List RawRecord) :
    load_data rows = rows.filterMap RawRecord.coerce := by
  unfold load_data
  rw [List.filter_filter]
  refine filterMap_coerce_filter _ (fun r hr => ?_) rows
  rw [Bool.and_eq_false_iff] at hr
  cases hg : r.grossIncomeRaw <;> cases hc : r.cogsRaw
  case none.none => simp [RawRecord.coerce, hg, hc]
  case none.some => simp [RawRecord.coerce, hg, hc]
  case some.none => simp [RawRecord.coerce, hg, hc]
  case some.some => simp [hg, hc] at hr

/-- C5: a raw row whose gross-income or cogs cell fails numeric coercion is
dropped (its coercion is `none`, so it contributes nothing to the loaded
dataset), a bad row never fails the whole load (the two-pass
drop-then-extract pipeline equals one total `filterMap`), and every row
whose two cells coerce is kept with all its fields unchanged. -/
theorem load_data_drops_bad_rows (rows : List RawRecord) :
    load_data rows = rows.filterMap RawRecord.coerce ∧
    (∀ r : RawRecord,
      r.coerce = none ↔ (r.grossIncomeRaw = none ∨ r.cogsRaw = none)) ∧
    (∀ (r : RawRecord) (s : SaleRecord), r.coerce = some s →
      s.invoiceId = r.invoiceId ∧ s.branch = r.branch ∧
      s.productLine = r.productLine ∧ s.customerType = r.customerType ∧
      s.payment = r.payment ∧ s.unitPrice = r.unitPrice ∧
      s.quantity = r.quantity ∧ s.tax = r.tax ∧ s.total = r.total ∧
      some s.cogs = r.cogsRaw ∧ some s.grossIncome = r.grossIncomeRaw ∧
      s.rating = r.rating ∧ s.date = r.date) := by
  refine ⟨load_data_eq_filterMap rows, fun r => ?_, fun r s hs => ?_⟩
  · cases hg : r.grossIncomeRaw <;> cases hc : r.cogsRaw <;>
      simp [RawRecord.coerce, hg, hc]
  · cases hg : r.grossIncomeRaw <;> cases hc : r.cogsRaw <;>
      rw [RawRecord.coerce, hg, hc] at hs
    case none.none => exact absurd hs (by simp)
    case none.some => exact absurd hs (by simp)
    case some.none => exact absurd hs (by simp)
    case some.some =>
      obtain rfl : _ = s := Option.some.inj hs
      simp [hg, hc]

/-- The coercible raw row corresponding to a loaded record. -/
def rawOf (s : SaleRecord) : RawRecord :=
  { invoiceId := s.invoiceId, branch := s.branch,
    productLine := s.productLine, customerType := s.customerType,
    payment := s.payment, unitPrice := s.unitPrice, quantity := s.quantity,
    tax := s.tax, total := s.total, cogsRaw := some s.cogs,
    grossIncomeRaw := some s.grossIncome, rating := s.rating, date := s.date }

/-- A raw row whose gross-income cell failed numeric coercion. -/
def rawBad : RawRecord :=
  { invoiceId := "I9", branch := "A", productLine := "Food",
    customerType := "Member", payment := "Cash", unitPrice := 1,
    quantity := 1, tax := 0, total := 1, cogsRaw := some 1,
    grossIncomeRaw := none, rating := 5, date := 1 }

/-- C5 witness: on a two-row raw file, the row with the uncoercible
gross-income cell is dropped, the other is kept with its branch column
unchanged, and the load succeeds. -/
theorem load_data_drops_bad_rows_witness :
    load_data [rawOf rowA, rawBad] = [rowA] ∧
    rawBad.coerce = none ∧ rowA.branch = (rawOf rowA).branch := by
  refine ⟨?_, ((load_data_drops_bad_rows []).2.1 rawBad).mpr (Or.inl rfl),
    ((load_data_drops_bad_rows []).2.2 (rawOf rowA) rowA rfl).2.1⟩
  rw [(load_data_drops_bad_rows [rawOf rowA, rawBad]).1]
  rfl

/-- C4: the KPI summary is `none` exactly on the empty filtered view (the
script computes the four metrics only under `if not filtered_df.empty`,
so in particular the rating mean is never taken over an empty view); on a
non-empty view it is `some` of the four metrics; and the spec's example —
a date range starting strictly after every row's date — yields the
"no data" state. -/
theorem kpiSummary_guard (df : List SaleRecord) (sel : Selection) (lo hi : ℤ) :
    (kpiSummary df = none ↔ df = []) ∧
    (df ≠ [] → ∃ k : KpiSummary, kpiSummary df = some k ∧
      k.total_revenue = (df.map (·.total)).sum ∧
      k.total_gross_income = (df.map (·.grossIncome)).sum ∧
      k.average_rating = meanQ (df.map (·.rating)) ∧
      k.num_transactions = (df.map (·.invoiceId)).dedup.length) ∧
    (sel.dateRange = [lo, hi] → (∀ r ∈ df, r.date < lo) →
      kpiSummary (applyFilters df sel) = none) := by
  refine ⟨?_, fun hne => ?_, fun hdr hlt => ?_⟩
  · constructor
    · intro h
      by_contra hne
      unfold kpiSummary at h
      rw [if_neg (by simpa [List.isEmpty_iff] using hne)] at h
      exact Option.some_ne_none _ h
    · intro h
      subst h
      rfl
  · have hk : kpiSummary df = some
        ⟨(df.map (·.total)).sum, (df.map (·.grossIncome)).sum,
         meanQ (df.map (·.rating)), (df.map (·.invoiceId)).dedup.length⟩ := by
      unfold kpiSummary
      rw [if_neg (by simpa [List.isEmpty_iff] using hne)]
    exact ⟨_, hk, rfl, rfl, rfl, rfl⟩
  · have hnil : applyFilters df sel = [] := by
      rw [applyFilters_eq_filter]
      refine List.filter_eq_nil_iff.mpr (fun r hr => ?_)
      simp only [decide_eq_true_eq, keepRow, hdr, dateWithin]
      intro hk
      exact absurd hk.2.2.2.1 (not_le.mpr (hlt r hr))
    rw [hnil]
    rfl

/-- C4 witness: on the three-row dataset a date range `[5, 6]` starts
after every row's date and produces the "no data" state, while the
unfiltered dataset has a computed KPI block. -/
theorem kpiSummary_guard_witness :
    kpiSummary (applyFilters dfABC ⟨"Todas", "Todas", "Todos", [5, 6]⟩) = none ∧
    (∃ k : KpiSummary, kpiSummary dfABC = some k ∧
      k.total_revenue = (dfABC.map (·.total)).sum ∧
      k.total_gross_income = (dfABC.map (·.grossIncome)).sum ∧
      k.average_rating = meanQ (dfABC.map (·.rating)) ∧
      k.num_transactions = (dfABC.map (·.invoiceId)).dedup.length) := by
  refine ⟨(kpiSummary_guard dfABC ⟨"Todas", "Todas", "Todos", [5, 6]⟩ 5 6).2.2 rfl ?_, ?_⟩
  · decide
  · exact ((kpiSummary_guard dfABC ⟨"Todas", "Todas", "Todos", [5, 6]⟩ 5 6).2.1 (by decide)).imp
      (fun k hk => hk)

/-! ### Group-by-and-sum lemmas -/

lemma sum_map_ite_of_not_mem {κ : Type} [DecidableEq κ] (ks : List κ) (a : κ)
    (v : ℚ) (ha : a ∉ ks) :
    (ks.map (fun k => if a = k then v else 0)).sum = 0 := by
  induction ks with
  | nil => rfl
  | cons k rest ih =>
    have hne : a ≠ k := fun h => ha (h ▸ List.mem_cons_self k rest)
    have hrest : a ∉ rest := fun h => ha (List.mem_cons_of_mem k h)
    simp [hne, ih hrest]

lemma sum_map_ite_of_mem {κ : Type} [DecidableEq κ] (ks : List κ) (a : κ)
    (v : ℚ) (hnd : ks.Nodup) (ha : a ∈ ks) :
    (ks.map (fun k => if a = k then v else 0)).sum = v := by
  induction ks with
  | nil => cases ha
  | cons k rest ih =>
    rcases List.mem_cons.mp ha with h | h
    · subst h
      have : a ∉ rest := (List.nodup_cons.mp hnd).1
      simp [sum_map_ite_of_not_mem rest a v this]
    · have hne : a ≠ k := fun hak => (List.nodup_cons.mp hnd).1 (hak ▸ h)
      simp [hne, ih (List.nodup_cons.mp hnd).2 h]

/-- Summing the per-key group sums over a duplicate-free key list covering
every row recovers the sum over all rows. -/
lemma sum_groups_eq_sum {κ : Type} [DecidableEq κ] (key : SaleRecord → κ)
    (f : SaleRecord → ℚ) (ks : List κ) (df : List SaleRecord)
    (hnd : ks.Nodup) (hcov : ∀ r ∈ df, key r ∈ ks) :
    (ks.map (fun k => ((df.filter (fun r => key r = k)).map f).sum)).sum =
      (df.map f).sum := by
  induction df with
  | nil => simp
  | cons r rest ih =>
    have hstep : ∀ k : κ,
        (((r :: rest).filter (fun x => key x = k)).map f).sum =
          (if key r = k then f r else 0) +
            ((rest.filter (fun x => key x = k)).map f).sum := by
      intro k
      rw [List.filter_cons]
      by_cases h : key r = k
      · simp [h]
      · simp [h]
    calc (ks.map (fun k => (((r :: rest).filter (fun x => key x = k)).map f).sum)).sum
        = (ks.map (fun k => (if key r = k then f r else 0) +
            ((rest.filter (fun x => key x = k)).map f).sum)).sum := by
          rw [List.map_congr_left (fun k _ => hstep k)]
      _ = (ks.map (fun k => if key r = k then f r else 0)).sum +
            (ks.map (fun k => ((rest.filter (fun x => key x = k)).map f).sum)).sum := by
          rw [List.sum_map_add]
      _ = f r + (rest.map f).sum := by
          rw [sum_map_ite_of_mem ks (key r) (f r) hnd (hcov r (List.mem_cons_self r rest)),
            ih (fun x hx => hcov x (List.mem_cons_of_mem r hx))]
      _ = ((r :: rest).map f).sum := by simp

lemma groupSumBy_snd_sum {κ : Type} [DecidableEq κ] (key : SaleRecord → κ)
    (f : SaleRecord → ℚ) (df : List SaleRecord) :
    ((groupSumBy key f df).map Prod.snd).sum = (df.map f).sum := by
  unfold groupSumBy
  rw [List.map_map]
  exact sum_groups_eq_sum key f _ df (List.nodup_dedup _)
    (fun r hr => List.mem_dedup.mpr (List.mem_map_of_mem _ hr))

lemma groupSumBy_mem_iff {κ : Type} [DecidableEq κ] (key : SaleRecord → κ)
    (f : SaleRecord → ℚ) (df : List SaleRecord) (k : κ) (v : ℚ) :
    (k, v) ∈ groupSumBy key f df ↔
      k ∈ df.map key ∧ v = ((df.filter (fun r => key r = k)).map f).sum := by
  unfold groupSumBy
  constructor
  · intro h
    obtain ⟨k', hk', heq⟩ := List.mem_map.mp h
    obtain ⟨rfl, rfl⟩ : k' = k ∧ _ := ⟨congrArg Prod.fst heq, (congrArg Prod.snd heq).symm⟩
    exact ⟨List.mem_dedup.mp hk', rfl⟩
  · rintro ⟨hk, rfl⟩
    exact List.mem_map.mpr ⟨k, List.mem_dedup.mpr hk, rfl⟩

lemma sortDescBySum_perm {κ : Type} (l : List (κ × ℚ)) :
    (sortDescBySum l).Perm l :=
  List.mergeSort_perm l _

lemma sortDescBySum_sorted {κ : Type} (l : List (κ × ℚ)) :
    List.Sorted (fun a b : κ × ℚ => b.2 ≤ a.2) (sortDescBySum l) := by
  have h := @List.sorted_mergeSort (κ × ℚ) (fun a b => decide (b.2 ≤ a.2))
    (fun a b c hab hbc => by
      simp only [decide_eq_true_eq] at *
      exact le_trans hbc hab)
    (fun a b => by
      simp only [Bool.or_eq_true, decide_eq_true_eq]
      exact le_total b.2 a.2)
    l
  exact h.imp (fun hab => of_decide_eq_true hab)

lemma dedup_of_const {κ : Type} [DecidableEq κ] (l : List κ) (p : κ)
    (h : ∀ x ∈ l, x = p) (hne : l ≠ []) : l.dedup = [p] := by
  induction l with
  | nil => exact absurd rfl hne
  | cons x rest ih =>
    have hx : x = p := h x (List.mem_cons_self x rest)
    subst hx
    cases rest with
    | nil => simp
    | cons y rest2 =>
      have hy : y = x := h y (List.mem_cons_of_mem x (List.mem_cons_self y rest2))
      have hmem : x ∈ y :: rest2 := hy ▸ List.mem_cons_self y rest2
      rw [List.dedup_cons_of_mem hmem]
      exact ih (fun z hz => h z (List.mem_cons_of_mem x hz)) (by simp)

/-! ### Claims about the aggregation functions -/

/-- C6: the per-group values of the "Revenue by product line" aggregate
sum to the `Total` sum over the whole filtered view: group-by-and-sum
partitions the total. -/
theorem revenue_by_product_line_partitions (df : List SaleRecord) :
    ((revenue_by_product_line df).map Prod.snd).sum = (df.map (·.total)).sum := by
  unfold revenue_by_product_line
  rw [((sortDescBySum_perm _).map Prod.snd).sum_eq]
  exact groupSumBy_snd_sum _ _ df

/-- C9: "Revenue by product line" groups by product line, pairs each
distinct product line with the sum of `Total` over its rows, sorts the
groups in descending order of that sum; and when every row of the view
has the same product line, the aggregate is the single group carrying the
whole `Total` sum. -/
theorem revenue_by_product_line_spec (df : List SaleRecord) (p : String) :
    List.Sorted (fun a b : String × ℚ => b.2 ≤ a.2) (revenue_by_product_line df) ∧
    (∀ k v, (k, v) ∈ revenue_by_product_line df ↔
      k ∈ df.map (·.productLine) ∧
      v = ((df.filter (fun r => r.productLine = k)).map (·.total)).sum) ∧
    ((∀ r ∈ df, r.productLine = p) → df ≠ [] →
      revenue_by_product_line df = [(p, (df.map (·.total)).sum)]) := by
  refine ⟨sortDescBySum_sorted _, fun k v => ?_, fun hall hne => ?_⟩
  · unfold revenue_by_product_line
    rw [(sortDescBySum_perm _).mem_iff]
    exact groupSumBy_mem_iff _ _ df k v
  · have hkeys : (df.map (·.productLine)).dedup = [p] :=
      dedup_of_const _ p (by simpa using hall) (by simpa using hne)
    have hfilter : df.filter (fun r => r.productLine = p) = df :=
      List.filter_eq_self.mpr (fun r hr => by simp [hall r hr])
    unfold revenue_by_product_line groupSumBy
    rw [hkeys]
    simp only [List.map_cons, List.map_nil, hfilter]
    unfold sortDescBySum
    simp

/-- C9 witness: with both rows in the Electronics product line the
aggregate has the single group `("Electronics", 150)` — rows 1 and 2 of
the spec's running example. -/
theorem revenue_by_product_line_spec_witness :
    revenue_by_product_line [rowA, rowB] = [("Electronics", 150)] := by
  rw [(revenue_by_product_line_spec [rowA, rowB] "Electronics").2.2
    (by decide) (by simp)]
  norm_num [rowA, rowB]

/-- C8: the gross-income composition has exactly the two modes selected by
the branch filter: a specific branch groups the view by product line and
sums `gross income` with the groups sorted descending by that sum, while
`Todas` groups by the (branch, product line) pair and sums `gross income`
per pair. -/
theorem incomeComposition_two_modes (df : List SaleRecord) (sb : String) :
    (sb ≠ "Todas" → ∃ l, incomeComposition df sb = .byProduct l ∧
      List.Sorted (fun a b : String × ℚ => b.2 ≤ a.2) l ∧
      ∀ k v, ((k, v) ∈ l ↔ k ∈ df.map (·.productLine) ∧
        v = ((df.filter (fun r => r.productLine = k)).map (·.grossIncome)).sum)) ∧
    (sb = "Todas" → ∃ l, incomeComposition df sb = .byBranchProduct l ∧
      ∀ k v, ((k, v) ∈ l ↔ k ∈ df.map (fun r => (r.branch, r.productLine)) ∧
        v = ((df.filter (fun r => (r.branch, r.productLine) = k)).map
          (·.grossIncome)).sum)) := by
  constructor
  · intro hsb
    refine ⟨_, by rw [incomeComposition, if_pos hsb], sortDescBySum_sorted _, fun k v => ?_⟩
    rw [(sortDescBySum_perm _).mem_iff]
    exact groupSumBy_mem_iff _ _ df k v
  · intro hsb
    refine ⟨_, by rw [incomeComposition, if_neg (by simp [hsb])], fun k v => ?_⟩
    exact groupSumBy_mem_iff _ _ df k v

/-- C8 witness: branch `A` selected dispatches to the by-product-line
mode, `Todas` to the by-(branch, product line) mode. -/
theorem incomeComposition_two_modes_witness :
    (∃ l, incomeComposition dfABC "A" = IncomeComposition.byProduct l) ∧
    (∃ l, incomeComposition dfABC "Todas" = IncomeComposition.byBranchProduct l) :=
  ⟨((incomeComposition_two_modes dfABC "A").1 (by decide)).elim
      (fun l hl => ⟨l, hl.1⟩),
   ((incomeComposition_two_modes dfABC "Todas").2 rfl).elim
      (fun l hl => ⟨l, hl.1⟩)⟩

/-! ### Claims about the correlation matrix -/

lemma sxy_comm (f g : SaleRecord → ℚ) (df : List SaleRecord) :
    sxy f g df = sxy g f df := by
  unfold sxy
  exact congrArg List.sum (List.map_congr_left (fun r _ => mul_comm _ _))

lemma sxy_self_nonneg (f : SaleRecord → ℚ) (df : List SaleRecord) :
    0 ≤ sxy f f df := by
  unfold sxy
  refine List.sum_nonneg (fun x hx => ?_)
  obtain ⟨r, _, rfl⟩ := List.mem_map.mp hx
  exact mul_self_nonneg _

/-- C7 (amended): the correlation matrix over the seven numeric columns is
symmetric, and its diagonal entry is `1` for every included column whose
centred second moment over the filtered view is nonzero.  (For a column
that is constant on the view — e.g. any single-row view — the defining
ratio is `0/0`: pandas produces NaN there, this embedding the junk value
`0`; either way the diagonal entry is not `1`, see the counterexample.) -/
theorem correlation_matrix_symm_diag (df : List SaleRecord) (i j : Fin 7) :
    correlation_matrix df i j = correlation_matrix df j i ∧
    (sxy (corrCol i) (corrCol i) df ≠ 0 → correlation_matrix df i i = 1) := by
  constructor
  · unfold correlation_matrix corr
    rw [sxy_comm (corrCol i) (corrCol j) df, mul_comm]
  · intro hS
    unfold correlation_matrix corr
    have hsq : Real.sqrt ((sxy (corrCol i) (corrCol i) df : ℚ) : ℝ) *
        Real.sqrt ((sxy (corrCol i) (corrCol i) df : ℚ) : ℝ) =
        ((sxy (corrCol i) (corrCol i) df : ℚ) : ℝ) :=
      Real.mul_self_sqrt (by exact_mod_cast sxy_self_nonneg (corrCol i) df)
    rw [hsq]
    exact div_self (by exact_mod_cast hS)

/-- C7 witness: on the two-row view the unit-price column has nonzero
variance, so its diagonal entry is `1`; symmetry holds for the
(unit price, quantity) pair. -/
theorem correlation_matrix_symm_diag_witness :
    correlation_matrix [rowA, rowB] 0 1 = correlation_matrix [rowA, rowB] 1 0 ∧
    correlation_matrix [rowA, rowB] 0 0 = 1 :=
  ⟨(correlation_matrix_symm_diag [rowA, rowB] 0 1).1,
   (correlation_matrix_symm_diag [rowA, rowB] 0 0).2
     (by norm_num [sxy, meanQ, corrCol, rowA, rowB])⟩

/-- C7 counterexample to the claim as stated: the non-empty single-row
filtered view (reachable by filtering the dataset down to one row) has a
constant unit-price column, and the corresponding diagonal entry of the
correlation matrix is `0`, not `1` (pandas: NaN, not 1.0). -/
theorem correlation_matrix_diag_not_one :
    [rowA] ≠ ([] : List SaleRecord) ∧ correlation_matrix [rowA] 0 0 ≠ 1 := by
  refine ⟨by simp, ?_⟩
  have h : sxy (corrCol 0) (corrCol 0) [rowA] = 0 := by
    norm_num [sxy, meanQ, corrCol, rowA]
  unfold correlation_matrix corr
  rw [h]
  norm_num

/-- C10: each of the four filter steps produces a sublist (an
order-preserving subsequence) of its input, hence the filtered view is an
order-preserving subsequence of the dataset: any two surviving rows keep
the relative order they had in the dataset. -/
theorem applyFilters_sublist_each_step (df : List SaleRecord) (sel : Selection) :
    (filterBranch sel df).Sublist df ∧
    (filterProductLine sel (filterBranch sel df)).Sublist (filterBranch sel df) ∧
    (filterCustomerType sel (filterProductLine sel (filterBranch sel df))).Sublist
      (filterProductLine sel (filterBranch sel df)) ∧
    (applyFilters df sel).Sublist
      (filterCustomerType sel (filterProductLine sel (filterBranch sel df))) ∧
    (applyFilters df sel).Sublist df := by
  refine ⟨filterBranch_sublist sel df, filterProductLine_sublist sel _,
    filterCustomerType_sublist sel _, filterDate_sublist sel _, ?_⟩
  exact ((filterDate_sublist sel _).trans
    ((filterCustomerType_sublist sel _).trans
      ((filterProductLine_sublist sel _).trans (filterBranch_sublist sel df))))
